import Mathlib

/-!
Shallow embedding of the `limited-promise` library (a lazily-refilled,
credit-allowing token bucket) and verification of its specification.

JavaScript numbers are modelled as rationals (`ℚ`); wall-clock times are
rationals in milliseconds.  Statements that the source makes by mutating
fields are modelled by explicit state passing: each operation takes the
current state (and, where the source reads `new Date().getTime()`, the
current time `now`) and returns its result together with the new state.
A `throw` in the source becomes a dedicated constructor of the result
type, carrying the state as it stood when the exception was raised.
-/

namespace LimitedPromiseLib

/-- Internal configuration type where all fields are defined
(`FullLimitedPromiseConfig` in `src/index.ts`). -/
structure FullConfig where
  tokens : ℚ
  tokenCredit : ℚ
  rate : ℚ
deriving DecidableEq, Repr

/-- The user-facing configuration, all fields optional
(`LimitedPromiseConfig` in `src/index.ts`). -/
structure LimitedPromiseConfig where
  tokens : Option ℚ := none
  tokenCredit : Option ℚ := none
  rate : Option ℚ := none
deriving DecidableEq, Repr

/-- The default configuration if nothing is passed (`DefaultConfig`). -/
def DefaultConfig : FullConfig :=
  { tokens := 10, tokenCredit := 10, rate := 1 / 60 }

/-- `Object.assign(Object.assign(\x7b\x7d, DefaultConfig), config)`:
every field present in `config` overrides the default. -/
def mergeConfig (c : LimitedPromiseConfig) : FullConfig :=
  { tokens := c.tokens.getD DefaultConfig.tokens
    tokenCredit := c.tokenCredit.getD DefaultConfig.tokenCredit
    rate := c.rate.getD DefaultConfig.rate }

/-- JavaScript `Math.min` on two (non-NaN) numbers. -/
def mathMin (a b : ℚ) : ℚ := if a ≤ b then a else b

/-- JavaScript `Math.max` on two (non-NaN) numbers. -/
def mathMax (a b : ℚ) : ℚ := if a ≤ b then b else a

/-- JavaScript `x || d` on an optional number: `undefined` and `0` are
falsy, so both fall back to the default `d`. -/
def jsNumOr (x : Option ℚ) (d : ℚ) : ℚ :=
  match x with
  | none => d
  | some v => if v = 0 then d else v

/-- The state of a `LimitedPromise` instance (`src/index.ts`).
`pending` lists the ids of deferred, not-yet-fired requests in insertion
order (the keys of the `pending` object); the reject callback stored with
each entry is represented by the cancellation bookkeeping in `cancel`. -/
structure LimitedPromise where
  config : FullConfig
  _balance : ℚ
  lastTime : ℚ
  pending : List ℕ
  nextId : ℕ
deriving DecidableEq, Repr

/-- The `LimitedPromise` constructor (`src/index.ts:50`):
`this._balance = initialBalance || this.config.tokens` — note the
JavaScript `||`, modelled by `jsNumOr`. -/
def LimitedPromise.construct (config : LimitedPromiseConfig)
    (initialBalance : Option ℚ) (now : ℚ) : LimitedPromise :=
  let cfg := mergeConfig config
  { config := cfg
    _balance := jsNumOr initialBalance cfg.tokens
    lastTime := now
    pending := []
    nextId := 0 }

/-- Result of `nextDelay`: either a delay in milliseconds, or the
`Exceeded token credit allowance` exception carrying the balance it
reports. -/
inductive DelayResult where
  | delay (d : ℚ)
  | creditExceeded (currentBalance : ℚ)
deriving DecidableEq, Repr

/-- `LimitedPromise.nextDelay` (`src/index.ts:58`): update `lastTime`,
lazily refill the balance (only while below `tokens`, clamped below at
`-tokenCredit`), then decide grant / reject / defer. -/
def LimitedPromise.nextDelay (s : LimitedPromise) (now : ℚ) :
    DelayResult × LimitedPromise :=
  let dt := now - s.lastTime
  let s1 : LimitedPromise := { s with lastTime := now }
  let s2 : LimitedPromise :=
    if s1._balance < s1.config.tokens then
      let addedTokens := dt / 1000 * s1.config.rate
      let b1 := mathMin (s1._balance + addedTokens) s1.config.tokens
      { s1 with _balance := mathMax b1 (-s1.config.tokenCredit) }
    else s1
  if s2._balance ≥ 1 then
    (DelayResult.delay 0, { s2 with _balance := s2._balance - 1 })
  else if s2._balance < -s2.config.tokenCredit + 1 then
    (DelayResult.creditExceeded s2._balance, s2)
  else
    let delayInTokens := 1 - s2._balance
    (DelayResult.delay (1000 * delayInTokens / s2.config.rate),
      { s2 with _balance := s2._balance - 1 })

/-- The balance the lazy-refill step of `LimitedPromise.nextDelay`
produces (`src/index.ts:64`-`71`): unchanged when already at or above
`tokens`; otherwise accrued at `rate` tokens per second, capped at
`tokens` and floored at `-tokenCredit`. -/
def refilledBalance (s : LimitedPromise) (now : ℚ) : ℚ :=
  if s._balance < s.config.tokens then
    mathMax
      (mathMin (s._balance + (now - s.lastTime) / 1000 * s.config.rate)
        s.config.tokens)
      (-s.config.tokenCredit)
  else s._balance

/-- Outcome of one `next()` call as observed by the caller. -/
inductive NextOutcome where
  | resolvedNow
  | scheduled (d : ℚ)
  | rejectedCredit (currentBalance : ℚ)
deriving DecidableEq, Repr

/-- `LimitedPromise.next` (`src/index.ts:86`): take a fresh id, run
`nextDelay`; an exception rejects the promise synchronously, `delay ≤ 0`
resolves immediately, otherwise the request is registered in `pending`
and scheduled `delay` milliseconds out. -/
def LimitedPromise.next (s : LimitedPromise) (now : ℚ) :
    NextOutcome × LimitedPromise :=
  let id := s.nextId
  let s0 : LimitedPromise := { s with nextId := id + 1 }
  match s0.nextDelay now with
  | (DelayResult.creditExceeded b, s') => (NextOutcome.rejectedCredit b, s')
  | (DelayResult.delay d, s') =>
    if d ≤ 0 then (NextOutcome.resolvedNow, s')
    else (NextOutcome.scheduled d, { s' with pending := s'.pending ++ [id] })

/-- The `setTimeout` callback of a deferred request (`src/index.ts:95`):
resolve, then delete the entry from `pending`. -/
def LimitedPromise.fire (s : LimitedPromise) (id : ℕ) : LimitedPromise :=
  { s with pending := s.pending.erase id }

/-- `LimitedPromise.cancel` (`src/index.ts:112`): reject every pending
task with a `Bucket Cancelled` error, clear its timeout, and reset the
registry to empty.  The first component lists, in registry order, the
ids rejected together with the error message each receives; the
operation is total (it never throws). -/
def LimitedPromise.cancel (s : LimitedPromise) :
    List (ℕ × String) × LimitedPromise :=
  (s.pending.map (fun id => (id, "Bucket Cancelled")),
    { s with pending := [] })

/-- The `balance` getter (`src/index.ts:108`): returns the stored
`_balance` field and, being a getter with no assignments, leaves the
state untouched; it takes no clock input at all. -/
def LimitedPromise.balanceGet (s : LimitedPromise) : ℚ × LimitedPromise :=
  (s._balance, s)

/-- The state of a `LazyBucket` instance (`src/lazy-bucket.ts`). -/
structure LazyBucket where
  config : FullConfig
  _balance : ℚ
  lastTime : ℚ
deriving DecidableEq, Repr

/-- `LazyBucket.nextDelay` (`src/lazy-bucket.ts:48`): identical to
`LimitedPromise.nextDelay` except that the refill is NOT floored at
`-tokenCredit` (there is no `Math.max` clamp in this file). -/
def LazyBucket.nextDelay (s : LazyBucket) (now : ℚ) :
    DelayResult × LazyBucket :=
  let dt := now - s.lastTime
  let s1 : LazyBucket := { s with lastTime := now }
  let s2 : LazyBucket :=
    if s1._balance < s1.config.tokens then
      let addedTokens := dt / 1000 * s1.config.rate
      { s1 with _balance := mathMin (s1._balance + addedTokens) s1.config.tokens }
    else s1
  if s2._balance ≥ 1 then
    (DelayResult.delay 0, { s2 with _balance := s2._balance - 1 })
  else if s2._balance < -s2.config.tokenCredit + 1 then
    (DelayResult.creditExceeded s2._balance, s2)
  else
    let delayInTokens := 1 - s2._balance
    (DelayResult.delay (1000 * delayInTokens / s2.config.rate),
      { s2 with _balance := s2._balance - 1 })

/-- Discriminator for the credit-exceeded exception of `nextDelay`. -/
def DelayResult.isCreditError : DelayResult → Bool
  | DelayResult.creditExceeded _ => true
  | DelayResult.delay _ => false

/-- Modelled from the spec: the caller-supplied cancellation handle
(`string or number`); the handle-aware `next(handle)` / `cancel(handle)`
of the published library is referenced by the repository's test file and
README but is absent from the `src/` sources, which only carry the
no-handle versions. -/
abbrev CancellationHandle : Type := String ⊕ ℕ

/-- Modelled from the spec: a pending (deferred, not-yet-fired) request
record in the cancellation registry — its unique monotonically assigned
id, its optional caller-supplied handle, and the future instant at which
its timer is scheduled to fire. -/
structure PendingReq where
  id : ℕ
  handle : Option CancellationHandle
  fireAt : ℚ
deriving DecidableEq

/-- Modelled from the spec: `cancel(handle)` — for every pending request
registered under `handle` (or, if no handle is given, every pending
request regardless of handle), fail its completion with a cancellation
error and remove it from the registry.  The first component lists the
requests that are cancelled, the second the registry that remains. -/
def cancelByHandle (h : Option CancellationHandle) (reqs : List PendingReq) :
    List PendingReq × List PendingReq :=
  match h with
  | none => (reqs, [])
  | some a =>
    (reqs.filter (fun r => decide (r.handle = some a)),
      reqs.filter (fun r => !(decide (r.handle = some a))))

/-! ## General lemmas about the embedding -/

theorem le_mathMax_right (a b : ℚ) : b ≤ mathMax a b := by
  unfold mathMax; split <;> linarith

/-- `LimitedPromise.nextDelay` in closed form: update `lastTime`, refill
to `refilledBalance`, then the three-way decision of the source. -/
theorem nextDelay_cases (s : LimitedPromise) (now : ℚ) :
    s.nextDelay now =
      if 1 ≤ refilledBalance s now then
        (DelayResult.delay 0,
          { s with lastTime := now, _balance := refilledBalance s now - 1 })
      else if refilledBalance s now < -s.config.tokenCredit + 1 then
        (DelayResult.creditExceeded (refilledBalance s now),
          { s with lastTime := now, _balance := refilledBalance s now })
      else
        (DelayResult.delay (1000 * (1 - refilledBalance s now) / s.config.rate),
          { s with lastTime := now, _balance := refilledBalance s now - 1 }) := by
  cases s with
  | mk cfg bal lt pend nid =>
    unfold LimitedPromise.nextDelay refilledBalance
    dsimp only
    by_cases h1 : bal < cfg.tokens
    · rw [if_pos h1, if_pos h1]
    · rw [if_neg h1, if_neg h1]

/-- `LimitedPromise.next` in closed form: the rejection of `nextDelay`
is caught and surfaced synchronously; a non-positive delay resolves
immediately; a positive delay registers the fresh id in `pending`. -/
theorem next_cases (s : LimitedPromise) (now : ℚ) :
    s.next now =
      if 1 ≤ refilledBalance s now then
        (NextOutcome.resolvedNow,
          { s with lastTime := now, _balance := refilledBalance s now - 1,
                   nextId := s.nextId + 1 })
      else if refilledBalance s now < -s.config.tokenCredit + 1 then
        (NextOutcome.rejectedCredit (refilledBalance s now),
          { s with lastTime := now, _balance := refilledBalance s now,
                   nextId := s.nextId + 1 })
      else if 1000 * (1 - refilledBalance s now) / s.config.rate ≤ 0 then
        (NextOutcome.resolvedNow,
          { s with lastTime := now, _balance := refilledBalance s now - 1,
                   nextId := s.nextId + 1 })
      else
        (NextOutcome.scheduled (1000 * (1 - refilledBalance s now) / s.config.rate),
          { s with lastTime := now, _balance := refilledBalance s now - 1,
                   nextId := s.nextId + 1, pending := s.pending ++ [s.nextId] }) := by
  cases s with
  | mk cfg bal lt pend nid =>
    unfold LimitedPromise.next LimitedPromise.nextDelay refilledBalance
    dsimp only
    split_ifs <;> simp_all

/-! ## Claim theorems -/

/-- C1: after the lazy refill step, the admission decision of
`LimitedPromise.nextDelay` is three-way: a post-refill balance of at
least 1 grants immediately with delay 0 and decrements the balance by
exactly 1; otherwise a post-refill balance below `-tokenCredit + 1`
rejects with the over-credit error and does not decrement; otherwise the
request is deferred by exactly `1000 * (1 - balance) / rate`
milliseconds (from the post-refill, pre-decrement balance) and the
balance is decremented by exactly 1. -/
theorem C1_admission_three_way_decision (s : LimitedPromise) (now : ℚ) :
    (1 ≤ refilledBalance s now →
      s.nextDelay now =
        (DelayResult.delay 0,
          { s with lastTime := now, _balance := refilledBalance s now - 1 })) ∧
    (¬ 1 ≤ refilledBalance s now →
      refilledBalance s now < -s.config.tokenCredit + 1 →
      s.nextDelay now =
        (DelayResult.creditExceeded (refilledBalance s now),
          { s with lastTime := now, _balance := refilledBalance s now })) ∧
    (¬ 1 ≤ refilledBalance s now →
      ¬ refilledBalance s now < -s.config.tokenCredit + 1 →
      s.nextDelay now =
        (DelayResult.delay (1000 * (1 - refilledBalance s now) / s.config.rate),
          { s with lastTime := now, _balance := refilledBalance s now - 1 })) := by
  refine ⟨fun h1 => ?_, fun h1 h2 => ?_, fun h1 h2 => ?_⟩
  · rw [nextDelay_cases, if_pos h1]
  · rw [nextDelay_cases, if_neg h1, if_pos h2]
  · rw [nextDelay_cases, if_neg h1, if_neg h2]

/-- C1, witnessed: all three branches realized at concrete inputs
(`tokens = 10`, `tokenCredit = 10`, `rate = 1`). -/
theorem C1_admission_three_way_decision_witness :
    (1 ≤ refilledBalance ⟨⟨10, 10, 1⟩, 5, 0, [], 0⟩ 0 ∧
      LimitedPromise.nextDelay ⟨⟨10, 10, 1⟩, 5, 0, [], 0⟩ 0 =
        (DelayResult.delay 0, ⟨⟨10, 10, 1⟩, 4, 0, [], 0⟩)) ∧
    (¬ 1 ≤ refilledBalance ⟨⟨10, 10, 1⟩, -10, 0, [], 0⟩ 0 ∧
      refilledBalance ⟨⟨10, 10, 1⟩, -10, 0, [], 0⟩ 0 < -10 + 1 ∧
      LimitedPromise.nextDelay ⟨⟨10, 10, 1⟩, -10, 0, [], 0⟩ 0 =
        (DelayResult.creditExceeded (-10), ⟨⟨10, 10, 1⟩, -10, 0, [], 0⟩)) ∧
    (¬ 1 ≤ refilledBalance ⟨⟨10, 10, 1⟩, 0, 0, [], 0⟩ 0 ∧
      ¬ refilledBalance ⟨⟨10, 10, 1⟩, 0, 0, [], 0⟩ 0 < -10 + 1 ∧
      LimitedPromise.nextDelay ⟨⟨10, 10, 1⟩, 0, 0, [], 0⟩ 0 =
        (DelayResult.delay 1000, ⟨⟨10, 10, 1⟩, -1, 0, [], 0⟩)) := by
  have e5 : refilledBalance ⟨⟨10, 10, 1⟩, 5, 0, [], 0⟩ 0 = 5 := by
    norm_num [refilledBalance, mathMin, mathMax]
  have em : refilledBalance ⟨⟨10, 10, 1⟩, -10, 0, [], 0⟩ 0 = -10 := by
    norm_num [refilledBalance, mathMin, mathMax]
  have e0 : refilledBalance ⟨⟨10, 10, 1⟩, 0, 0, [], 0⟩ 0 = 0 := by
    norm_num [refilledBalance, mathMin, mathMax]
  refine ⟨⟨by rw [e5]; norm_num, ?_⟩,
          ⟨by rw [em]; norm_num, by rw [em]; norm_num, ?_⟩,
          ⟨by rw [e0]; norm_num, by rw [e0]; norm_num, ?_⟩⟩
  · rw [(C1_admission_three_way_decision ⟨⟨10, 10, 1⟩, 5, 0, [], 0⟩ 0).1
      (by rw [e5]; norm_num)]
    rw [e5]
    norm_num
  · rw [(C1_admission_three_way_decision ⟨⟨10, 10, 1⟩, -10, 0, [], 0⟩ 0).2.1
      (by rw [em]; norm_num) (by rw [em]; norm_num)]
    rw [em]
  · rw [(C1_admission_three_way_decision ⟨⟨10, 10, 1⟩, 0, 0, [], 0⟩ 0).2.2
      (by rw [e0]; norm_num) (by rw [e0]; norm_num)]
    rw [e0]
    norm_num

/-- C2, counterexample: the claim also covers `LazyBucket.nextDelay`
(`src/lazy-bucket.ts:48`), whose refill has no credit floor.  With
`tokens = 10`, `tokenCredit = 10`, `rate = 1`, a pre-refill balance of 0
(which is at least `-tokenCredit`) and a clock regression of 1000
seconds, the refill leaves the balance at `-1000`, far below
`-tokenCredit = -10`. -/
theorem C2_lazy_bucket_counterexample :
    -(10 : ℚ) ≤ 0 ∧
    (LazyBucket.nextDelay ⟨⟨10, 10, 1⟩, 0, 1000000⟩ 0).2._balance = -1000 ∧
    (-1000 : ℚ) < -10 := by
  refine ⟨by norm_num, ?_, by norm_num⟩
  norm_num [LazyBucket.nextDelay, mathMin]

/-- C2, amended: for `LimitedPromise.nextDelay` (`src/index.ts`), whose
refill ends with `Math.max(balance, -tokenCredit)`, the refill step
never leaves the balance below `-tokenCredit` whenever the pre-refill
balance was at least `-tokenCredit`, regardless of the elapsed time
(including negative elapsed time from a clock regression). -/
theorem C2_refill_credit_floor (s : LimitedPromise) (now : ℚ)
    (h : -s.config.tokenCredit ≤ s._balance) :
    -s.config.tokenCredit ≤ refilledBalance s now := by
  unfold refilledBalance
  split
  · exact le_mathMax_right _ _
  · exact h

/-- C2, witnessed at a clock-regression input: pre-refill balance 0 with
`lastTime` one million milliseconds in the future still refills to a
balance of at least `-10`. -/
theorem C2_refill_credit_floor_witness :
    -(⟨⟨10, 10, 1⟩, 0, 1000000, [], 0⟩ : LimitedPromise).config.tokenCredit ≤
      (⟨⟨10, 10, 1⟩, 0, 1000000, [], 0⟩ : LimitedPromise)._balance ∧
    -(⟨⟨10, 10, 1⟩, 0, 1000000, [], 0⟩ : LimitedPromise).config.tokenCredit ≤
      refilledBalance ⟨⟨10, 10, 1⟩, 0, 1000000, [], 0⟩ 0 :=
  ⟨by norm_num, C2_refill_credit_floor ⟨⟨10, 10, 1⟩, 0, 1000000, [], 0⟩ 0 (by norm_num)⟩

/-- C7: when the balance is already at or above `tokens`, the refill
step of `LimitedPromise.nextDelay` leaves it unchanged (the
`balance < tokens` guard skips both the accrual and the capacity cap),
and if moreover the balance is at least 1 the call grants immediately,
decrementing by exactly 1 — an over-capacity balance is consumed, never
silently clamped. -/
theorem C7_no_refill_at_or_above_capacity (s : LimitedPromise) (now : ℚ)
    (h : s.config.tokens ≤ s._balance) :
    refilledBalance s now = s._balance ∧
    (1 ≤ s._balance →
      s.nextDelay now =
        (DelayResult.delay 0,
          { s with lastTime := now, _balance := s._balance - 1 })) := by
  have e : refilledBalance s now = s._balance := by
    unfold refilledBalance
    rw [if_neg (not_lt.mpr h)]
  refine ⟨e, fun h1 => ?_⟩
  rw [nextDelay_cases, e, if_pos h1]

/-- C7, witnessed: an over-capacity balance of 20 against `tokens = 10`
survives a 5-second idle period unchanged and is then consumed by 1. -/
theorem C7_no_refill_at_or_above_capacity_witness :
    (⟨⟨10, 10, 1⟩, 20, 0, [], 0⟩ : LimitedPromise).config.tokens ≤
      (⟨⟨10, 10, 1⟩, 20, 0, [], 0⟩ : LimitedPromise)._balance ∧
    refilledBalance ⟨⟨10, 10, 1⟩, 20, 0, [], 0⟩ 5000 = 20 ∧
    LimitedPromise.nextDelay ⟨⟨10, 10, 1⟩, 20, 0, [], 0⟩ 5000 =
      (DelayResult.delay 0, ⟨⟨10, 10, 1⟩, 19, 5000, [], 0⟩) := by
  refine ⟨by norm_num, ?_, ?_⟩
  · exact (C7_no_refill_at_or_above_capacity ⟨⟨10, 10, 1⟩, 20, 0, [], 0⟩ 5000
      (by norm_num)).1
  · rw [(C7_no_refill_at_or_above_capacity ⟨⟨10, 10, 1⟩, 20, 0, [], 0⟩ 5000
      (by norm_num)).2 (by norm_num)]
    norm_num

/-- C10: the `balance` getter returns the stored balance and mutates
nothing; it does not apply the lazy refill, so between admission calls
the reported balance does not grow with elapsed time — concretely, after
a 1-second idle the refill would yield balance 1, yet the getter still
reports the stored 0. -/
theorem C10_balance_getter_is_pure :
    (∀ s : LimitedPromise, s.balanceGet = (s._balance, s)) ∧
    refilledBalance ⟨⟨10, 10, 1⟩, 0, 0, [], 0⟩ 1000 = 1 ∧
    (LimitedPromise.balanceGet ⟨⟨10, 10, 1⟩, 0, 0, [], 0⟩).1 = 0 := by
  refine ⟨fun s => rfl, ?_, rfl⟩
  norm_num [refilledBalance, mathMin, mathMax]

/-- C4, counterexample: a configuration with `rate = 0`, negative
`tokenCredit` and negative `tokens` is accepted by the constructor,
which returns an ordinary state storing those values — nothing is raised
at construction time (the source constructor contains no validation and
no throw at all, so its embedding is total). -/
theorem C4_invalid_config_accepted_counterexample :
    LimitedPromise.construct ⟨some (-3), some (-1), some 0⟩ none 0 =
      ⟨⟨-3, -1, 0⟩, -3, 0, [], 0⟩ := rfl

/-- C4, amended: the constructor performs no validation whatsoever; for
every configuration (including `rate ≤ 0`, negative `tokenCredit`,
negative `tokens`) it succeeds and just stores the merged configuration,
the (JavaScript-`||`-defaulted) initial balance, the construction time,
an empty registry and id counter 0. -/
theorem C4_constructor_never_validates (config : LimitedPromiseConfig)
    (initialBalance : Option ℚ) (now : ℚ) :
    LimitedPromise.construct config initialBalance now =
      ⟨mergeConfig config, jsNumOr initialBalance (mergeConfig config).tokens,
        now, [], 0⟩ := rfl

/-- C5, counterexample: a rejected call does change bucket state.  With
`tokens = 10`, `tokenCredit = 10`, `rate = 1`, balance `-10` and 500 ms
elapsed, the call is rejected, yet the balance moves from `-10` to
`-19/2` (the refill ran), `lastTime` moves to 500 and the id counter is
incremented. -/
theorem C5_rejected_call_changes_state_counterexample :
    LimitedPromise.next ⟨⟨10, 10, 1⟩, -10, 0, [], 0⟩ 500 =
      (NextOutcome.rejectedCredit (-19/2), ⟨⟨10, 10, 1⟩, -19/2, 500, [], 1⟩) ∧
    (-10 : ℚ) < -19/2 := by
  have e : refilledBalance ⟨⟨10, 10, 1⟩, -10, 0, [], 0⟩ 500 = -19/2 := by
    norm_num [refilledBalance, mathMin, mathMax]
  refine ⟨?_, by norm_num⟩
  rw [next_cases, e]
  norm_num

/-- C5, amended: the over-credit rejection is synchronous — the call
itself returns the rejected outcome, no entry is added to the pending
registry — and the post-refill balance is not decremented; but the call
does update `lastTime`, applies the refill to the balance, and
increments the id counter. -/
theorem C5_rejection_synchronous_no_decrement (s : LimitedPromise)
    (now b : ℚ) (h : (s.next now).1 = NextOutcome.rejectedCredit b) :
    b = refilledBalance s now ∧
    (s.next now).2 =
      { s with lastTime := now, _balance := refilledBalance s now,
               nextId := s.nextId + 1 } := by
  rw [next_cases] at h ⊢
  split_ifs at h ⊢ with h1 h2 h3
  all_goals simp_all

/-- C5, witnessed at the counterexample input. -/
theorem C5_rejection_synchronous_no_decrement_witness :
    (LimitedPromise.next ⟨⟨10, 10, 1⟩, -10, 0, [], 0⟩ 500).1 =
      NextOutcome.rejectedCredit (-19/2) ∧
    ((-19/2 : ℚ) = refilledBalance ⟨⟨10, 10, 1⟩, -10, 0, [], 0⟩ 500 ∧
      (LimitedPromise.next ⟨⟨10, 10, 1⟩, -10, 0, [], 0⟩ 500).2 =
        ⟨⟨10, 10, 1⟩, refilledBalance ⟨⟨10, 10, 1⟩, -10, 0, [], 0⟩ 500,
          500, [], 1⟩) := by
  have e : refilledBalance ⟨⟨10, 10, 1⟩, -10, 0, [], 0⟩ 500 = -19/2 := by
    norm_num [refilledBalance, mathMin, mathMax]
  have hc : (LimitedPromise.next ⟨⟨10, 10, 1⟩, -10, 0, [], 0⟩ 500).1 =
      NextOutcome.rejectedCredit (-19/2) := by
    rw [next_cases, e]
    norm_num
  exact ⟨hc,
    C5_rejection_synchronous_no_decrement ⟨⟨10, 10, 1⟩, -10, 0, [], 0⟩ 500
      (-19/2) hc⟩

/-- C8: the claim is right and the code is wrong.  The constructor sets
`this._balance = initialBalance || this.config.tokens`; JavaScript `||`
treats the number 0 as falsy, so an explicit initial balance of 0 is
silently replaced by the full-bucket default `tokens` — here 100 — while
the claim (and the repository's own test, which constructs
`new LimitedPromise(\x7b rate: 1, tokens: 100 \x7d, 0)` and expects
`bucket.balance` to equal 0) requires 0. -/
theorem C8_initial_balance_zero_is_falsy :
    (LimitedPromise.construct ⟨some 100, none, some 1⟩ (some 0) 0)._balance
      = 100 := rfl

/-- C9: every admission call, a rejected one included, first sets
`lastTime` to the current time and applies the refill to the balance;
concretely (`tokens = 10`, `tokenCredit = 2`, `rate = 1`, balance `-2`,
`lastTime = 1000`), a rejected call made during a clock regression at
time 0 clamps the balance and resets `lastTime`, after which a call at
time 1000 is deferred by 2000 ms — whereas without the rejected call the
very same call at time 1000 is rejected. -/
theorem C9_rejected_call_still_updates_time_and_refill :
    (∀ (s : LimitedPromise) (now : ℚ),
      (s.nextDelay now).2.lastTime = now ∧
      ((s.nextDelay now).1.isCreditError = true →
        (s.nextDelay now).2._balance = refilledBalance s now)) ∧
    (LimitedPromise.nextDelay ⟨⟨10, 2, 1⟩, -2, 1000, [], 0⟩ 0).1 =
      DelayResult.creditExceeded (-2) ∧
    ((LimitedPromise.nextDelay ⟨⟨10, 2, 1⟩, -2, 1000, [], 0⟩ 0).2.nextDelay
        1000).1 = DelayResult.delay 2000 ∧
    (LimitedPromise.nextDelay ⟨⟨10, 2, 1⟩, -2, 1000, [], 0⟩ 1000).1 =
      DelayResult.creditExceeded (-2) := by
  refine ⟨fun s now => ?_, ?_, ?_, ?_⟩
  · rw [nextDelay_cases]
    split_ifs <;> simp [DelayResult.isCreditError]
  · norm_num [LimitedPromise.nextDelay, mathMin, mathMax]
  · norm_num [LimitedPromise.nextDelay, mathMin, mathMax]
  · norm_num [LimitedPromise.nextDelay, mathMin, mathMax]

/-- C9, witnessed: a concrete rejected call whose post-state carries the
current time and the refilled balance. -/
theorem C9_rejected_call_witness :
    (LimitedPromise.nextDelay ⟨⟨10, 10, 1⟩, -10, 0, [], 0⟩ 500).1.isCreditError
      = true ∧
    (LimitedPromise.nextDelay ⟨⟨10, 10, 1⟩, -10, 0, [], 0⟩ 500).2.lastTime
      = 500 ∧
    (LimitedPromise.nextDelay ⟨⟨10, 10, 1⟩, -10, 0, [], 0⟩ 500).2._balance =
      refilledBalance ⟨⟨10, 10, 1⟩, -10, 0, [], 0⟩ 500 := by
  have hc : (LimitedPromise.nextDelay ⟨⟨10, 10, 1⟩, -10, 0, [], 0⟩
      500).1.isCreditError = true := by
    norm_num [LimitedPromise.nextDelay, mathMin, mathMax,
      DelayResult.isCreditError]
  have h := (C9_rejected_call_still_updates_time_and_refill).1
    ⟨⟨10, 10, 1⟩, -10, 0, [], 0⟩ 500
  exact ⟨hc, h.1, h.2 hc⟩

/-- C6: the no-handle bulk `cancel` fails every outstanding pending
(deferred, not-yet-fired) request with the `Bucket Cancelled` error,
empties the registry (so subsequent requests start from a clean one),
touches nothing else of the state, and on an empty registry (as after
all deferred requests have fired) it is a no-op — and, being total, it
never throws. -/
theorem C6_cancel_all_and_empty_noop (s : LimitedPromise) :
    s.cancel.1 = s.pending.map (fun id => (id, "Bucket Cancelled")) ∧
    s.cancel.2 = { s with pending := [] } ∧
    s.cancel.2.pending = [] ∧
    (s.pending = [] → s.cancel = ([], s)) := by
  refine ⟨rfl, rfl, rfl, fun h => ?_⟩
  unfold LimitedPromise.cancel
  cases s
  simp_all

/-- C6, witnessed: a registry holding requests 0 and 1 is cancelled in
bulk, and a bucket with an empty registry is left exactly as it was. -/
theorem C6_cancel_all_witness :
    (⟨⟨10, 10, 1⟩, 0, 0, [0, 1], 2⟩ : LimitedPromise).cancel =
      ([(0, "Bucket Cancelled"), (1, "Bucket Cancelled")],
        ⟨⟨10, 10, 1⟩, 0, 0, [], 2⟩) ∧
    (⟨⟨10, 10, 1⟩, 5, 0, [], 3⟩ : LimitedPromise).pending = [] ∧
    (⟨⟨10, 10, 1⟩, 5, 0, [], 3⟩ : LimitedPromise).cancel =
      ([], ⟨⟨10, 10, 1⟩, 5, 0, [], 3⟩) :=
  ⟨rfl, rfl, (C6_cancel_all_and_empty_noop ⟨⟨10, 10, 1⟩, 5, 0, [], 3⟩).2.2.2 rfl⟩

/-- C3: cancelling handle `A` cancels exactly the pending requests
registered under `A` and leaves every request registered under another
handle, or under no handle, untouched in the remaining registry (the
very same records, with the same scheduled fire time).  The handle-aware
registry is modelled from the spec, the handle-taking `next`/`cancel`
being absent from `src/`. -/
theorem C3_cancel_handle_isolation (a : CancellationHandle)
    (reqs : List PendingReq) (r : PendingReq) (hr : r ∈ reqs) :
    (r.handle = some a → r ∈ (cancelByHandle (some a) reqs).1) ∧
    (r.handle ≠ some a → r ∈ (cancelByHandle (some a) reqs).2) ∧
    (∀ q ∈ (cancelByHandle (some a) reqs).1, q ∈ reqs ∧ q.handle = some a) ∧
    (∀ q ∈ (cancelByHandle (some a) reqs).2, q ∈ reqs ∧ q.handle ≠ some a) := by
  unfold cancelByHandle
  dsimp only
  refine ⟨fun h => ?_, fun h => ?_, fun q hq => ?_, fun q hq => ?_⟩ <;>
    simp_all [List.mem_filter, decide_eq_true_eq, Bool.not_eq_true', decide_eq_false_iff_not]

/-- C3, witnessed: cancelling handle `0` removes the request under
handle `0` and keeps the request under handle `1` pending with its
original fire time. -/
theorem C3_cancel_handle_isolation_witness :
    (⟨7, some (Sum.inr 1), 200⟩ : PendingReq) ∈
      [(⟨3, some (Sum.inr 0), 100⟩ : PendingReq), ⟨7, some (Sum.inr 1), 200⟩] ∧
    (⟨7, some (Sum.inr 1), 200⟩ : PendingReq) ∈
      (cancelByHandle (some (Sum.inr 0))
        [(⟨3, some (Sum.inr 0), 100⟩ : PendingReq),
          ⟨7, some (Sum.inr 1), 200⟩]).2 := by
  refine ⟨by simp, ?_⟩
  exact (C3_cancel_handle_isolation (Sum.inr 0)
    [⟨3, some (Sum.inr 0), 100⟩, ⟨7, some (Sum.inr 1), 200⟩]
    ⟨7, some (Sum.inr 1), 200⟩ (by simp)).2.1 (by simp)

end LimitedPromiseLib
